import Mathlib

/-!
Verification of the item CRUD service in `src/main.py`.

The service stores a list of items in one JSON file. Every handler reads
the whole collection, works on it in memory and (for writes) writes the
whole collection back. This file gives a shallow embedding of the data
model, the storage adapter and the five handlers, and proves the stated
properties about them.
-/

set_option autoImplicit false

namespace ItemService

/-! ### Decimal integers as Python sees them

`create_item` runs `int(existing_item.id)` on every stored id and
`str(max(...) + 1)` to build the new id.  We model `str` on `int` by
`pyIntToString` and `int` on `str` by `pyParseInt` (optional sign
followed by a nonempty run of decimal digits; surrounding whitespace and
underscore separators accepted by CPython are not modelled). -/

/-- Value of a decimal digit character. -/
def digitVal (c : Char) : Nat := c.toNat - 48

/-- Decimal digit character for a value below ten. -/
def digitChar (d : Nat) : Char :=
  match d with
  | 0 => '0'
  | 1 => '1'
  | 2 => '2'
  | 3 => '3'
  | 4 => '4'
  | 5 => '5'
  | 6 => '6'
  | 7 => '7'
  | 8 => '8'
  | _ => '9'

/-- Numeric value of a big-endian list of decimal digit characters. -/
def digitsToNat (l : List Char) : Nat :=
  l.foldl (fun acc c => acc * 10 + digitVal c) 0

/-- Big-endian decimal digit characters of `n`, with explicit fuel. -/
def toDecimalCore : Nat → Nat → List Char
  | 0, _ => []
  | fuel + 1, n =>
    if n < 10 then [digitChar n]
    else toDecimalCore fuel (n / 10) ++ [digitChar (n % 10)]

/-- Big-endian decimal digit characters of `n`. -/
def toDecimal (n : Nat) : List Char := toDecimalCore (n + 1) n

/-- Model of Python `str` applied to an `int`: canonical decimal form,
with a leading minus sign for negative values. -/
def pyIntToString (k : Int) : String :=
  if k < 0 then String.mk ('-' :: toDecimal k.natAbs)
  else String.mk (toDecimal k.toNat)

/-- Model of Python `int` applied to a `str`: an optional sign followed
by a nonempty run of decimal digits parses; everything else raises
(returns `none`). -/
def pyParseInt (s : String) : Option Int :=
  match s.data with
  | [] => none
  | c :: rest =>
    if c = '-' then
      if rest ≠ [] ∧ rest.all Char.isDigit = true
      then some (-(digitsToNat rest : Int)) else none
    else if c = '+' then
      if rest ≠ [] ∧ rest.all Char.isDigit = true
      then some ((digitsToNat rest : Int)) else none
    else
      if (c :: rest).all Char.isDigit = true
      then some ((digitsToNat (c :: rest) : Int)) else none

theorem digitVal_digitChar (d : Nat) (h : d < 10) : digitVal (digitChar d) = d := by
  interval_cases d <;> rfl

theorem isDigit_digitChar (d : Nat) (h : d < 10) : (digitChar d).isDigit = true := by
  interval_cases d <;> rfl

theorem digitsToNat_append (l : List Char) (c : Char) :
    digitsToNat (l ++ [c]) = digitsToNat l * 10 + digitVal c := by
  simp [digitsToNat, List.foldl_append]

theorem toDecimalCore_ne_nil (fuel n : Nat) (h : n < fuel) :
    toDecimalCore fuel n ≠ [] := by
  cases fuel with
  | zero => omega
  | succ fuel =>
    by_cases h10 : n < 10 <;> simp [toDecimalCore, h10]

theorem toDecimalCore_all_isDigit (fuel : Nat) :
    ∀ n, n < fuel → ∀ c ∈ toDecimalCore fuel n, c.isDigit = true := by
  induction fuel with
  | zero => intro n h; omega
  | succ fuel ih =>
    intro n _ c hc
    by_cases h10 : n < 10
    · simp [toDecimalCore, h10] at hc
      exact hc ▸ isDigit_digitChar n h10
    · simp [toDecimalCore, h10] at hc
      rcases hc with hc | hc
      · exact ih (n / 10) (by omega) c hc
      · exact hc ▸ isDigit_digitChar (n % 10) (by omega)

theorem digitsToNat_toDecimalCore (fuel : Nat) :
    ∀ n, n < fuel → digitsToNat (toDecimalCore fuel n) = n := by
  induction fuel with
  | zero => intro n h; omega
  | succ fuel ih =>
    intro n hn
    by_cases h10 : n < 10
    · simp [toDecimalCore, h10, digitsToNat, digitVal_digitChar n h10]
    · have hdiv : n / 10 < fuel := by omega
      simp only [toDecimalCore, h10, if_false, digitsToNat_append]
      rw [ih (n / 10) hdiv, digitVal_digitChar (n % 10) (by omega)]
      omega

theorem toDecimal_ne_nil (n : Nat) : toDecimal n ≠ [] :=
  toDecimalCore_ne_nil (n + 1) n (by omega)

theorem toDecimal_all_isDigit (n : Nat) : ∀ c ∈ toDecimal n, c.isDigit = true :=
  toDecimalCore_all_isDigit (n + 1) n (by omega)

theorem digitsToNat_toDecimal (n : Nat) : digitsToNat (toDecimal n) = n :=
  digitsToNat_toDecimalCore (n + 1) n (by omega)

/-- Round trip: the decimal string the service writes for an id parses
back to the same integer. -/
theorem pyParseInt_pyIntToString (k : Int) : pyParseInt (pyIntToString k) = some k := by
  by_cases hk : k < 0
  · have hne : toDecimal k.natAbs ≠ [] := toDecimal_ne_nil k.natAbs
    have hall : (toDecimal k.natAbs).all Char.isDigit = true :=
      List.all_eq_true.mpr (toDecimal_all_isDigit k.natAbs)
    simp only [pyIntToString, hk, if_true, pyParseInt]
    rw [if_pos (And.intro hne hall)]
    rw [digitsToNat_toDecimal]
    congr 1
    omega
  · obtain ⟨c, rest, hcr⟩ := List.exists_cons_of_ne_nil (toDecimal_ne_nil k.toNat)
    have hall : (toDecimal k.toNat).all Char.isDigit = true :=
      List.all_eq_true.mpr (toDecimal_all_isDigit k.toNat)
    have hcd : c.isDigit = true := toDecimal_all_isDigit k.toNat c (hcr ▸ List.mem_cons_self c rest)
    have hcm : c ≠ '-' := by intro h; rw [h] at hcd; simp [Char.isDigit] at hcd
    have hcp : c ≠ '+' := by intro h; rw [h] at hcd; simp [Char.isDigit] at hcd
    simp only [pyIntToString, hk, if_false, pyParseInt, hcr]
    rw [if_neg hcm, if_neg hcp, if_pos (hcr ▸ hall)]
    rw [← hcr, digitsToNat_toDecimal]
    congr 1
    omega

/-! ### Data model (`src/main.py`, classes `Item` and `ItemUpdate`)

The pydantic `Item` declares `name`, `price` and `quantity` required and
`id`, `description` optional.  Validation happens when a model is
constructed from JSON, but `BaseModel.copy(update=...)` — used by the
PATCH handler — bypasses validation, so at run time any field of an
`Item` object may hold `None`.  The embedding therefore gives every
field an `Option` type; JSON numbers are modelled exactly as `Rat` for
`price` and `Int` for `quantity`. -/

structure Item where
  id : Option String
  name : Option String
  description : Option String
  price : Option Rat
  quantity : Option Int
deriving DecidableEq

/-- Payload of the PATCH handler.  pydantic records for each field
whether it was supplied at all (`exclude_unset`), and a supplied field
may still be JSON `null`; the outer `Option` is supplied-ness, the inner
one nullability. -/
structure ItemUpdate where
  name : Option (Option String)
  description : Option (Option String)
  price : Option (Option Rat)
  quantity : Option (Option Int)
deriving DecidableEq

/-! ### Storage adapter (`read_data` / `write_data`)

The backing file `data.json` is modelled by its observable state: it is
absent, or present with content that decodes as a JSON list of items, or
present with content on which `json.load` raises (`JSONDecodeError`) —
the same branch also covers an `IOError` during the read.  `write_data`
rewrites the whole file; its own silently swallowed `IOError` path is
not modelled (no claim depends on it). -/

inductive FileState where
  | absent
  | present (decoded : Option (List Item))
deriving DecidableEq

/-- Model of `read_data`: missing file gives `[]`; undecodable content
or a read error gives `[]` as well; otherwise the decoded list. -/
def read_data : FileState → List Item
  | .absent => []
  | .present none => []
  | .present (some l) => l

/-- Whether `read_data` prints the `Error reading data.json` diagnostic:
only on the caught `JSONDecodeError` / `IOError` branch. -/
def read_data_logs : FileState → Bool
  | .present none => true
  | _ => false

/-- Model of `write_data`: serialises the full list, overwriting the
file. -/
def write_data (l : List Item) : FileState := .present (some l)

/-! ### Request handlers -/

/-- Response of a handler: a body with its HTTP status, the 404
`HTTPException`, or an unhandled exception escaping the handler. -/
inductive Resp (α : Type) where
  | ok (status : Nat) (body : α)
  | notFound
  | fail
deriving DecidableEq

/-- Handler of `GET /items`: returns the whole decoded collection. -/
def get_items (st : FileState) : Resp (List Item) :=
  .ok 200 (read_data st)

/-- Linear scan of `next((item for item in data if item.id == item_id), None)`:
first item whose id equals the path id. -/
def findItem : List Item → String → Option Item
  | [], _ => none
  | it :: rest, item_id =>
    if it.id = some item_id then some it else findItem rest item_id

/-- Handler of `GET /items/{item_id}`. -/
def get_item (st : FileState) (item_id : String) : Resp Item :=
  match findItem (read_data st) item_id with
  | some it => .ok 200 it
  | none => .notFound

/-- Evaluation of `[int(existing_item.id) for existing_item in data]`:
every stored id is parsed with `int`; `id = None` raises `TypeError`
and a non-numeric id raises `ValueError`, both giving `none`. -/
def intIdsOf : List Item → Option (List Int)
  | [] => some []
  | it :: rest =>
    (it.id.bind pyParseInt).bind fun v => (intIdsOf rest).map fun vs => v :: vs

/-- Evaluation of `max(l, default=0)`: the maximum of a nonempty list,
`0` for the empty one. -/
def maxDefault0 : List Int → Int
  | [] => 0
  | v :: vs => vs.foldl max v

/-- Handler of `POST /items`: parses every stored id, assigns
`str(max(ids, default=0) + 1)` as the new id (discarding any id in the
payload), appends the item and persists the whole list.  A stored id on
which `int` raises escapes the handler before anything is assigned or
written. -/
def create_item (st : FileState) (item : Item) : Resp Item × FileState :=
  let data := read_data st
  match intIdsOf data with
  | none => (.fail, st)
  | some ks =>
    let newItem := { item with id := some (pyIntToString (maxDefault0 ks + 1)) }
    (.ok 200 newItem, write_data (data ++ [newItem]))

/-- Loop of the PUT handler: find the first index whose item has the
path id, store the payload there with its id overwritten by the path
id, and return the new list together with the stored item. -/
def updateLoop (item_id : String) (item : Item) : List Item → Option (List Item × Item)
  | [] => none
  | x :: rest =>
    if x.id = some item_id then
      some ({ item with id := some item_id } :: rest, { item with id := some item_id })
    else
      (updateLoop item_id item rest).map fun p => (x :: p.1, p.2)

/-- Handler of `PUT /items/{item_id}`. -/
def update_item (st : FileState) (item_id : String) (item : Item) :
    Resp Item × FileState :=
  match updateLoop item_id item (read_data st) with
  | none => (.notFound, st)
  | some (l, r) => (.ok 200 r, write_data l)

/-- Merge of `existing_item.copy(update=item_update.dict(exclude_unset=True))`:
a supplied field overwrites (even with `None`), an unsupplied field
keeps the stored value; there is no id field in `ItemUpdate`. -/
def copyUpdate (it : Item) (u : ItemUpdate) : Item :=
  { id := it.id
    name := u.name.getD it.name
    description := u.description.getD it.description
    price := u.price.getD it.price
    quantity := u.quantity.getD it.quantity }

/-- Loop of the PATCH handler: find the first index whose item has the
path id and store the merged item there. -/
def patchLoop (item_id : String) (u : ItemUpdate) : List Item → Option (List Item × Item)
  | [] => none
  | x :: rest =>
    if x.id = some item_id then
      some (copyUpdate x u :: rest, copyUpdate x u)
    else
      (patchLoop item_id u rest).map fun p => (x :: p.1, p.2)

/-- Handler of `PATCH /items/{item_id}`. -/
def patch_item (st : FileState) (item_id : String) (u : ItemUpdate) :
    Resp Item × FileState :=
  match patchLoop item_id u (read_data st) with
  | none => (.notFound, st)
  | some (l, r) => (.ok 200 r, write_data l)

/-- Handler of `DELETE /items/{item_id}`: keeps the items whose id
differs from the path id; equal lengths mean nothing matched, a 404 is
raised and nothing is written; otherwise the filtered list is persisted
and 204 with no body is returned. -/
def delete_item (st : FileState) (item_id : String) : Resp Unit × FileState :=
  let data := read_data st
  let newData := data.filter fun it => decide (it.id ≠ some item_id)
  if newData.length = data.length then (.notFound, st)
  else (.ok 204 (), write_data newData)

/-- PATCH payload `{}`: no field supplied. -/
def emptyUpdate : ItemUpdate :=
  { name := none, description := none, price := none, quantity := none }

/-- PATCH payload `{"quantity": q}`: only `quantity` supplied, non-null. -/
def quantityUpdate (q : Int) : ItemUpdate :=
  { name := none, description := none, price := none, quantity := some (some q) }

/-! ### Helper lemmas -/

theorem intIdsOf_eq_none_iff (l : List Item) :
    intIdsOf l = none ↔ ∃ it ∈ l, it.id.bind pyParseInt = none := by
  induction l with
  | nil => simp [intIdsOf]
  | cons x rest ih =>
    cases hx : x.id.bind pyParseInt with
    | none =>
      simp only [intIdsOf, hx, Option.bind_eq_bind, Option.none_bind, true_iff]
      exact ⟨x, List.mem_cons_self x rest, hx⟩
    | some v =>
      cases hrest : intIdsOf rest with
      | none =>
        obtain ⟨it, hmem, hit⟩ := ih.mp hrest
        simp only [intIdsOf, hx, hrest, Option.bind_eq_bind, Option.some_bind,
          Option.map_none', true_iff]
        exact ⟨it, List.mem_cons_of_mem x hmem, hit⟩
      | some ks =>
        simp only [intIdsOf, hx, hrest, Option.bind_eq_bind, Option.some_bind,
          Option.map_some']
        constructor
        · intro h; exact absurd h (by simp)
        · rintro ⟨it, hmem, hit⟩
          rcases List.mem_cons.mp hmem with hm | hm
          · rw [hm, hx] at hit; exact Option.noConfusion hit
          · exact absurd (ih.mpr ⟨it, hm, hit⟩) (by simp [hrest])

theorem intIdsOf_isSome (l : List Item)
    (h : ∀ it ∈ l, (it.id.bind pyParseInt).isSome = true) :
    ∃ ks, intIdsOf l = some ks := by
  cases hl : intIdsOf l with
  | none =>
    obtain ⟨it, hmem, hit⟩ := (intIdsOf_eq_none_iff l).mp hl
    have hs := h it hmem
    rw [hit] at hs
    exact absurd hs (by simp)
  | some ks => exact ⟨ks, rfl⟩

theorem intIdsOf_mem (l : List Item) (ks : List Int) (h : intIdsOf l = some ks) :
    ∀ it ∈ l, ∃ v, it.id.bind pyParseInt = some v ∧ v ∈ ks := by
  induction l generalizing ks with
  | nil => intro it hit; exact absurd hit (List.not_mem_nil it)
  | cons x rest ih =>
    intro it hit
    cases hx : x.id.bind pyParseInt with
    | none => simp [intIdsOf, hx] at h
    | some v =>
      cases hrest : intIdsOf rest with
      | none => simp [intIdsOf, hx, hrest] at h
      | some vs =>
        have hks : v :: vs = ks := by simp [intIdsOf, hx, hrest] at h; exact h
        rcases List.mem_cons.mp hit with hit | hit
        · exact ⟨v, hit ▸ hx, hks ▸ List.mem_cons_self v vs⟩
        · obtain ⟨w, hw, hwm⟩ := ih vs hrest it hit
          exact ⟨w, hw, hks ▸ List.mem_cons_of_mem v hwm⟩

theorem le_foldl_max (l : List Int) (a : Int) : a ≤ l.foldl max a := by
  induction l generalizing a with
  | nil => simp [List.foldl]
  | cons x rest ih =>
    calc a ≤ max a x := le_max_left a x
    _ ≤ rest.foldl max (max a x) := ih (max a x)

theorem mem_le_foldl_max (l : List Int) :
    ∀ (a v : Int), v ∈ l → v ≤ l.foldl max a := by
  induction l with
  | nil => intro a v h; exact absurd h (List.not_mem_nil v)
  | cons x rest ih =>
    intro a v h
    rcases List.mem_cons.mp h with h | h
    · subst h
      calc v ≤ max a v := le_max_right a v
      _ ≤ rest.foldl max (max a v) := le_foldl_max rest (max a v)
    · exact ih (max a x) v h

theorem le_maxDefault0_of_mem (l : List Int) (v : Int) (h : v ∈ l) :
    v ≤ maxDefault0 l := by
  cases l with
  | nil => exact absurd h (List.not_mem_nil v)
  | cons x rest =>
    rcases List.mem_cons.mp h with h | h
    · exact h ▸ le_foldl_max rest x
    · exact mem_le_foldl_max rest x v h

theorem findItem_eq_none (l : List Item) (item_id : String)
    (h : ∀ it ∈ l, it.id ≠ some item_id) : findItem l item_id = none := by
  induction l with
  | nil => rfl
  | cons x rest ih =>
    simp only [findItem, h x (List.mem_cons_self x rest), if_false]
    exact ih fun it hit => h it (List.mem_cons_of_mem x hit)

theorem findItem_append_right (l₁ l₂ : List Item) (item_id : String)
    (h : ∀ it ∈ l₁, it.id ≠ some item_id) :
    findItem (l₁ ++ l₂) item_id = findItem l₂ item_id := by
  induction l₁ with
  | nil => rfl
  | cons x rest ih =>
    simp only [List.cons_append, findItem, h x (List.mem_cons_self x rest), if_false]
    exact ih fun it hit => h it (List.mem_cons_of_mem x hit)

theorem updateLoop_split (item_id : String) (item : Item) (pre post : List Item)
    (it : Item) (hpre : ∀ y ∈ pre, y.id ≠ some item_id) (hit : it.id = some item_id) :
    updateLoop item_id item (pre ++ it :: post) =
      some (pre ++ { item with id := some item_id } :: post,
            { item with id := some item_id }) := by
  induction pre with
  | nil => simp [updateLoop, hit]
  | cons x rest ih =>
    rw [List.cons_append, updateLoop, if_neg (hpre x (List.mem_cons_self x rest)),
      ih fun y hy => hpre y (List.mem_cons_of_mem x hy)]
    rfl

theorem updateLoop_eq_none (item_id : String) (item : Item) (l : List Item)
    (h : ∀ it ∈ l, it.id ≠ some item_id) : updateLoop item_id item l = none := by
  induction l with
  | nil => rfl
  | cons x rest ih =>
    rw [updateLoop, if_neg (h x (List.mem_cons_self x rest)),
      ih fun it hit => h it (List.mem_cons_of_mem x hit)]
    rfl

theorem patchLoop_split (item_id : String) (u : ItemUpdate) (pre post : List Item)
    (it : Item) (hpre : ∀ y ∈ pre, y.id ≠ some item_id) (hit : it.id = some item_id) :
    patchLoop item_id u (pre ++ it :: post) =
      some (pre ++ copyUpdate it u :: post, copyUpdate it u) := by
  induction pre with
  | nil => simp [patchLoop, hit]
  | cons x rest ih =>
    rw [List.cons_append, patchLoop, if_neg (hpre x (List.mem_cons_self x rest)),
      ih fun y hy => hpre y (List.mem_cons_of_mem x hy)]
    rfl

theorem patchLoop_eq_none (item_id : String) (u : ItemUpdate) (l : List Item)
    (h : ∀ it ∈ l, it.id ≠ some item_id) : patchLoop item_id u l = none := by
  induction l with
  | nil => rfl
  | cons x rest ih =>
    rw [patchLoop, if_neg (h x (List.mem_cons_self x rest)),
      ih fun it hit => h it (List.mem_cons_of_mem x hit)]
    rfl

theorem updateLoop_idem (item_id : String) (item : Item) :
    ∀ (l l' : List Item) (r : Item), updateLoop item_id item l = some (l', r) →
      updateLoop item_id item l' = some (l', r) := by
  intro l
  induction l with
  | nil => intro l' r h; exact absurd h (by simp [updateLoop])
  | cons x rest ih =>
    intro l' r h
    by_cases hx : x.id = some item_id
    · rw [updateLoop, if_pos hx] at h
      have hl : { item with id := some item_id } :: rest = l' :=
        congrArg Prod.fst (Option.some.inj h)
      have hr : { item with id := some item_id } = r :=
        congrArg Prod.snd (Option.some.inj h)
      subst hl
      subst hr
      rw [updateLoop, if_pos rfl]
    · rw [updateLoop, if_neg hx] at h
      cases hrest : updateLoop item_id item rest with
      | none => rw [hrest] at h; exact absurd h (by simp)
      | some p =>
        obtain ⟨l₂, r₂⟩ := p
        rw [hrest] at h
        have hl : x :: l₂ = l' := congrArg Prod.fst (Option.some.inj h)
        have hr : r₂ = r := congrArg Prod.snd (Option.some.inj h)
        subst hl
        subst hr
        rw [updateLoop, if_neg hx, ih l₂ r₂ hrest]
        rfl

theorem copyUpdate_empty (it : Item) : copyUpdate it emptyUpdate = it := rfl

theorem copyUpdate_quantity (it : Item) (q : Int) :
    copyUpdate it (quantityUpdate q) = { it with quantity := some q } := rfl

/-! ### The claims -/

/-- C1: when every stored id parses as a base-10 integer (their values
being `ks`), `create_item` assigns the new item the decimal string of
`maxDefault0 ks + 1` as id — whatever id the payload carried — appends
it at the end, persists the whole list and returns the created item. -/
theorem claim_C1 (st : FileState) (item : Item) (ks : List Int)
    (h : intIdsOf (read_data st) = some ks) :
    create_item st item =
      (.ok 200 { item with id := some (pyIntToString (maxDefault0 ks + 1)) },
       write_data (read_data st ++
         [{ item with id := some (pyIntToString (maxDefault0 ks + 1)) }])) := by
  simp [create_item, h]

theorem claim_C1_witness :
    create_item
      (FileState.present (some
        [{ id := some "3", name := some "a", description := none,
           price := some 1, quantity := some 2 },
         { id := some "7", name := some "b", description := some "d",
           price := some 2, quantity := some 5 }]))
      { id := some "99", name := some "c", description := none,
        price := some 3, quantity := some 4 } =
      (.ok 200 { id := some "8", name := some "c", description := none,
                 price := some 3, quantity := some 4 },
       write_data
         [{ id := some "3", name := some "a", description := none,
            price := some 1, quantity := some 2 },
          { id := some "7", name := some "b", description := some "d",
            price := some 2, quantity := some 5 },
          { id := some "8", name := some "c", description := none,
            price := some 3, quantity := some 4 }]) := by
  rw [claim_C1 _ _ [3, 7] (by decide)]
  decide

/-- C2: parsing the stored ids during `create_item` fails exactly when
some stored id is not a numeric string: a store holding such an id makes
the handler escape with an unhandled exception, before any id is
assigned and with the file untouched; a store whose ids all parse never
reaches that branch. -/
theorem claim_C2 (st : FileState) (item : Item) :
    ((∃ it ∈ read_data st, it.id.bind pyParseInt = none) →
        create_item st item = (.fail, st)) ∧
    ((∀ it ∈ read_data st, (it.id.bind pyParseInt).isSome = true) →
        ∃ r st', create_item st item = (.ok 200 r, st')) := by
  constructor
  · intro h
    have hnone : intIdsOf (read_data st) = none := (intIdsOf_eq_none_iff _).mpr h
    simp [create_item, hnone]
  · intro h
    obtain ⟨ks, hks⟩ := intIdsOf_isSome _ h
    exact ⟨{ item with id := some (pyIntToString (maxDefault0 ks + 1)) },
      write_data (read_data st ++
        [{ item with id := some (pyIntToString (maxDefault0 ks + 1)) }]),
      by simp [create_item, hks]⟩

theorem claim_C2_witness :
    create_item
      (FileState.present (some
        [{ id := some "oops", name := some "a", description := none,
           price := some 1, quantity := some 2 }]))
      { id := none, name := some "c", description := none,
        price := some 3, quantity := some 4 } =
      (.fail, FileState.present (some
        [{ id := some "oops", name := some "a", description := none,
           price := some 1, quantity := some 2 }])) ∧
    ∃ r st', create_item
      (FileState.present (some
        [{ id := some "2", name := some "a", description := none,
           price := some 1, quantity := some 2 }]))
      { id := none, name := some "c", description := none,
        price := some 3, quantity := some 4 } = (.ok 200 r, st') := by
  constructor
  · exact (claim_C2 _ _).1
      ⟨{ id := some "oops", name := some "a", description := none,
         price := some 1, quantity := some 2 }, by decide, by decide⟩
  · exact (claim_C2 _ _).2 (by decide)

/-- C3: when every stored id parses as a base-10 integer, a
`get_item` with the id returned by a `create_item`, run on the state the
creation left behind, returns exactly the created item, which agrees
with the posted payload on every field except the server-assigned id. -/
theorem claim_C3 (st : FileState) (item : Item) (ks : List Int)
    (h : intIdsOf (read_data st) = some ks) :
    ∃ newItem sid st',
      create_item st item = (.ok 200 newItem, st') ∧
      newItem.id = some sid ∧
      get_item st' sid = .ok 200 newItem ∧
      newItem.name = item.name ∧ newItem.description = item.description ∧
      newItem.price = item.price ∧ newItem.quantity = item.quantity := by
  refine ⟨{ item with id := some (pyIntToString (maxDefault0 ks + 1)) },
    pyIntToString (maxDefault0 ks + 1),
    write_data (read_data st ++
      [{ item with id := some (pyIntToString (maxDefault0 ks + 1)) }]),
    by simp [create_item, h], rfl, ?_, rfl, rfl, rfl, rfl⟩
  have hnomatch : ∀ it ∈ read_data st,
      it.id ≠ some (pyIntToString (maxDefault0 ks + 1)) := by
    intro it hit heq
    obtain ⟨v, hv, hvks⟩ := intIdsOf_mem _ ks h it hit
    rw [heq] at hv
    simp only [Option.bind_eq_bind, Option.some_bind] at hv
    rw [pyParseInt_pyIntToString] at hv
    have hvle : v ≤ maxDefault0 ks := le_maxDefault0_of_mem ks v hvks
    have : v = maxDefault0 ks + 1 := (Option.some.inj hv).symm
    omega
  show get_item (write_data _) _ = _
  unfold get_item
  rw [show read_data (write_data (read_data st ++
      [{ item with id := some (pyIntToString (maxDefault0 ks + 1)) }])) =
      read_data st ++
        [{ item with id := some (pyIntToString (maxDefault0 ks + 1)) }] from rfl]
  rw [findItem_append_right _ _ _ hnomatch]
  simp [findItem]

theorem claim_C3_witness :
    ∃ newItem sid st',
      create_item
        (FileState.present (some
          [{ id := some "3", name := some "a", description := none,
             price := some 1, quantity := some 2 }]))
        { id := none, name := some "c", description := some "d",
          price := some 3, quantity := some 4 } = (.ok 200 newItem, st') ∧
      newItem.id = some sid ∧
      get_item st' sid = .ok 200 newItem ∧
      newItem.name = some "c" ∧ newItem.description = some "d" ∧
      newItem.price = some 3 ∧ newItem.quantity = some 4 :=
  claim_C3
    (FileState.present (some
      [{ id := some "3", name := some "a", description := none,
         price := some 1, quantity := some 2 }]))
    { id := none, name := some "c", description := some "d",
      price := some 3, quantity := some 4 }
    [3] (by decide)

/-- C4: on a store whose first item with the path id is `it`, a PATCH
with the empty payload stores and returns `it` unchanged, and a PATCH
with `{"quantity": q}` changes only `quantity` of that item — `id`,
`name`, `description` and `price` keep their values — while every other
item of the collection is untouched. -/
theorem claim_C4 (st : FileState) (item_id : String) (pre post : List Item) (it : Item)
    (hdata : read_data st = pre ++ it :: post)
    (hpre : ∀ y ∈ pre, y.id ≠ some item_id)
    (hit : it.id = some item_id) :
    patch_item st item_id emptyUpdate = (.ok 200 it, write_data (pre ++ it :: post)) ∧
    ∀ q : Int,
      patch_item st item_id (quantityUpdate q) =
        (.ok 200 { it with quantity := some q },
         write_data (pre ++ { it with quantity := some q } :: post)) := by
  constructor
  · unfold patch_item
    rw [hdata, patchLoop_split _ _ _ _ _ hpre hit, copyUpdate_empty]
  · intro q
    unfold patch_item
    rw [hdata, patchLoop_split _ _ _ _ _ hpre hit, copyUpdate_quantity]

theorem claim_C4_witness :
    patch_item
      (FileState.present (some
        [{ id := some "1", name := some "a", description := some "d",
           price := some 9, quantity := some 3 },
         { id := some "2", name := some "b", description := none,
           price := some 7, quantity := some 1 }]))
      "1" emptyUpdate =
      (.ok 200 { id := some "1", name := some "a", description := some "d",
                 price := some 9, quantity := some 3 },
       write_data
         [{ id := some "1", name := some "a", description := some "d",
            price := some 9, quantity := some 3 },
          { id := some "2", name := some "b", description := none,
            price := some 7, quantity := some 1 }]) ∧
    patch_item
      (FileState.present (some
        [{ id := some "1", name := some "a", description := some "d",
           price := some 9, quantity := some 3 },
         { id := some "2", name := some "b", description := none,
           price := some 7, quantity := some 1 }]))
      "1" (quantityUpdate 5) =
      (.ok 200 { id := some "1", name := some "a", description := some "d",
                 price := some 9, quantity := some 5 },
       write_data
         [{ id := some "1", name := some "a", description := some "d",
            price := some 9, quantity := some 5 },
          { id := some "2", name := some "b", description := none,
            price := some 7, quantity := some 1 }]) := by
  have h := claim_C4
    (FileState.present (some
      [{ id := some "1", name := some "a", description := some "d",
         price := some 9, quantity := some 3 },
       { id := some "2", name := some "b", description := none,
         price := some 7, quantity := some 1 }]))
    "1" []
    [{ id := some "2", name := some "b", description := none,
       price := some 7, quantity := some 1 }]
    { id := some "1", name := some "a", description := some "d",
      price := some 9, quantity := some 3 }
    rfl (by simp) rfl
  exact ⟨h.1, h.2 5⟩

/-- C5: a successful PUT is idempotent — repeating `update_item` with
the same path id and the same payload on the state the first run wrote
gives the same stored list and the same returned item again. -/
theorem claim_C5 (st : FileState) (item_id : String) (item : Item)
    (l : List Item) (r : Item)
    (h : updateLoop item_id item (read_data st) = some (l, r)) :
    update_item st item_id item = (.ok 200 r, write_data l) ∧
    update_item (write_data l) item_id item = (.ok 200 r, write_data l) := by
  constructor
  · unfold update_item; rw [h]
  · unfold update_item
    rw [show read_data (write_data l) = l from rfl, updateLoop_idem _ _ _ _ _ h]

theorem claim_C5_witness :
    update_item
      (FileState.present (some
        [{ id := some "1", name := some "a", description := none,
           price := some 9, quantity := some 3 }]))
      "1"
      { id := some "9", name := some "z", description := some "e",
        price := some 4, quantity := some 6 } =
      (.ok 200 { id := some "1", name := some "z", description := some "e",
                 price := some 4, quantity := some 6 },
       write_data [{ id := some "1", name := some "z", description := some "e",
                     price := some 4, quantity := some 6 }]) ∧
    update_item
      (write_data [{ id := some "1", name := some "z", description := some "e",
                     price := some 4, quantity := some 6 }])
      "1"
      { id := some "9", name := some "z", description := some "e",
        price := some 4, quantity := some 6 } =
      (.ok 200 { id := some "1", name := some "z", description := some "e",
                 price := some 4, quantity := some 6 },
       write_data [{ id := some "1", name := some "z", description := some "e",
                     price := some 4, quantity := some 6 }]) :=
  claim_C5
    (FileState.present (some
      [{ id := some "1", name := some "a", description := none,
         price := some 9, quantity := some 3 }]))
    "1"
    { id := some "9", name := some "z", description := some "e",
      price := some 4, quantity := some 6 }
    [{ id := some "1", name := some "z", description := some "e",
       price := some 4, quantity := some 6 }]
    { id := some "1", name := some "z", description := some "e",
      price := some 4, quantity := some 6 }
    (by decide)

/-- C6: PUT scans for the first stored item with the path id; when one
exists, the item at that position becomes the payload with its id field
overwritten by the path id, the list is persisted and that item is
returned; when no item matches, the handler answers 404 and the store is
untouched. -/
theorem claim_C6 (st : FileState) (item_id : String) (item : Item) :
    (∀ pre it post, read_data st = pre ++ it :: post →
        (∀ y ∈ pre, y.id ≠ some item_id) → it.id = some item_id →
        update_item st item_id item =
          (.ok 200 { item with id := some item_id },
           write_data (pre ++ { item with id := some item_id } :: post))) ∧
    ((∀ it ∈ read_data st, it.id ≠ some item_id) →
        update_item st item_id item = (.notFound, st)) := by
  constructor
  · intro pre it post hdata hpre hit
    unfold update_item
    rw [hdata, updateLoop_split _ _ _ _ _ hpre hit]
  · intro h
    unfold update_item
    rw [updateLoop_eq_none _ _ _ h]

theorem claim_C6_witness :
    update_item
      (FileState.present (some
        [{ id := some "2", name := some "b", description := none,
           price := some 7, quantity := some 1 },
         { id := some "1", name := some "a", description := none,
           price := some 9, quantity := some 3 }]))
      "1"
      { id := some "42", name := some "z", description := some "e",
        price := some 4, quantity := some 6 } =
      (.ok 200 { id := some "1", name := some "z", description := some "e",
                 price := some 4, quantity := some 6 },
       write_data
         [{ id := some "2", name := some "b", description := none,
            price := some 7, quantity := some 1 },
          { id := some "1", name := some "z", description := some "e",
            price := some 4, quantity := some 6 }]) ∧
    update_item
      (FileState.present (some
        [{ id := some "2", name := some "b", description := none,
           price := some 7, quantity := some 1 }]))
      "1"
      { id := some "42", name := some "z", description := some "e",
        price := some 4, quantity := some 6 } =
      (.notFound,
       FileState.present (some
        [{ id := some "2", name := some "b", description := none,
           price := some 7, quantity := some 1 }])) := by
  constructor
  · exact (claim_C6 _ "1" _).1
      [{ id := some "2", name := some "b", description := none,
         price := some 7, quantity := some 1 }]
      { id := some "1", name := some "a", description := none,
        price := some 9, quantity := some 3 }
      [] rfl (by decide) rfl
  · exact (claim_C6 _ "1" _).2 (by decide)

/-- C7: DELETE drops every stored item whose id equals the path id; the
404 answer, which leaves the file untouched, happens exactly when no
stored item has that id (the filtered list kept the original length);
when some item matches, the filtered list is persisted and the handler
answers 204 with no body. -/
theorem claim_C7 (st : FileState) (item_id : String) :
    (delete_item st item_id = (.notFound, st) ↔
        ∀ it ∈ read_data st, it.id ≠ some item_id) ∧
    ((∃ it ∈ read_data st, it.id = some item_id) →
        delete_item st item_id =
          (.ok 204 (),
           write_data ((read_data st).filter fun it =>
             decide (it.id ≠ some item_id)))) := by
  have hdel : delete_item st item_id =
      (if ((read_data st).filter fun it =>
            decide (it.id ≠ some item_id)).length = (read_data st).length
       then (.notFound, st)
       else (.ok 204 (), write_data ((read_data st).filter fun it =>
              decide (it.id ≠ some item_id)))) := rfl
  have key : (((read_data st).filter fun it =>
        decide (it.id ≠ some item_id)).length = (read_data st).length) ↔
      ∀ it ∈ read_data st, it.id ≠ some item_id := by
    constructor
    · intro h it hit
      have heq : (read_data st).filter (fun it => decide (it.id ≠ some item_id)) =
          read_data st :=
        List.Sublist.eq_of_length (List.filter_sublist _) h
      exact of_decide_eq_true (List.filter_eq_self.mp heq it hit)
    · intro h
      rw [List.filter_eq_self.mpr fun it hit => decide_eq_true (h it hit)]
  constructor
  · constructor
    · intro h
      by_cases hlen : ((read_data st).filter fun it =>
          decide (it.id ≠ some item_id)).length = (read_data st).length
      · exact key.mp hlen
      · rw [hdel, if_neg hlen] at h
        exact absurd h (by simp)
    · intro h
      rw [hdel, if_pos (key.mpr h)]
  · rintro ⟨it, hit, hid⟩
    have hlen : ¬ ((read_data st).filter fun it =>
        decide (it.id ≠ some item_id)).length = (read_data st).length :=
      fun hc => (key.mp hc it hit) hid
    rw [hdel, if_neg hlen]

theorem claim_C7_witness :
    (delete_item (FileState.present (some
        [{ id := some "2", name := some "b", description := none,
           price := some 7, quantity := some 1 }])) "1" =
      (.notFound, FileState.present (some
        [{ id := some "2", name := some "b", description := none,
           price := some 7, quantity := some 1 }])) ↔
      ∀ it ∈ read_data (FileState.present (some
        [{ id := some "2", name := some "b", description := none,
           price := some 7, quantity := some 1 }])), it.id ≠ some "1") ∧
    delete_item (FileState.present (some
        [{ id := some "1", name := some "a", description := none,
           price := some 9, quantity := some 3 },
         { id := some "2", name := some "b", description := none,
           price := some 7, quantity := some 1 },
         { id := some "1", name := some "c", description := none,
           price := some 5, quantity := some 2 }])) "1" =
      (.ok 204 (),
       write_data [{ id := some "2", name := some "b", description := none,
                     price := some 7, quantity := some 1 }]) := by
  constructor
  · exact (claim_C7 _ "1").1
  · have h := (claim_C7 (FileState.present (some
        [{ id := some "1", name := some "a", description := none,
           price := some 9, quantity := some 3 },
         { id := some "2", name := some "b", description := none,
           price := some 7, quantity := some 1 },
         { id := some "1", name := some "c", description := none,
           price := some 5, quantity := some 2 }])) "1").2
      ⟨{ id := some "1", name := some "a", description := none,
         price := some 9, quantity := some 3 }, by decide, by decide⟩
    rw [h]
    decide

/-- C8: deletion is terminal — after a DELETE that answered 204, a GET
with the same id on the state the delete wrote answers 404. -/
theorem claim_C8 (st st' : FileState) (item_id : String)
    (h : delete_item st item_id = (.ok 204 (), st')) :
    get_item st' item_id = .notFound := by
  have hdel : delete_item st item_id =
      (if ((read_data st).filter fun it =>
            decide (it.id ≠ some item_id)).length = (read_data st).length
       then (.notFound, st)
       else (.ok 204 (), write_data ((read_data st).filter fun it =>
              decide (it.id ≠ some item_id)))) := rfl
  by_cases hlen : ((read_data st).filter fun it =>
      decide (it.id ≠ some item_id)).length = (read_data st).length
  · rw [hdel, if_pos hlen] at h
    exact absurd h (by simp)
  · rw [hdel, if_neg hlen] at h
    have hst : write_data ((read_data st).filter fun it =>
        decide (it.id ≠ some item_id)) = st' := congrArg Prod.snd h
    rw [← hst]
    unfold get_item
    rw [show read_data (write_data ((read_data st).filter fun it =>
          decide (it.id ≠ some item_id))) =
        (read_data st).filter fun it => decide (it.id ≠ some item_id) from rfl]
    rw [findItem_eq_none]
    intro it hit
    exact of_decide_eq_true (List.mem_filter.mp hit).2

theorem claim_C8_witness :
    get_item
      (write_data [{ id := some "2", name := some "b", description := none,
                     price := some 7, quantity := some 1 }]) "1" = .notFound :=
  claim_C8
    (FileState.present (some
      [{ id := some "1", name := some "a", description := none,
         price := some 9, quantity := some 3 },
       { id := some "2", name := some "b", description := none,
         price := some 7, quantity := some 1 }]))
    (write_data [{ id := some "2", name := some "b", description := none,
                   price := some 7, quantity := some 1 }])
    "1" (by decide)

/-- C9: the storage adapter never passes a read failure on: a missing
file reads as the empty list without a diagnostic, undecodable content
or a failing read reads as the empty list with a logged diagnostic, and
the list endpoint on a fresh deployment answers 200 with the empty
array. -/
theorem claim_C9 :
    read_data FileState.absent = [] ∧
    read_data_logs FileState.absent = false ∧
    read_data (FileState.present none) = [] ∧
    read_data_logs (FileState.present none) = true ∧
    get_items FileState.absent = .ok 200 [] :=
  ⟨rfl, rfl, rfl, rfl, rfl⟩

/-- C10: PATCH distinguishes a field supplied as `null` from an absent
field: on the first stored item matching the path id, a field the
payload carries as explicit `null` is overwritten with `null` — also the
required fields `name`, `price` and `quantity` — while a field the
payload omits keeps its stored value. -/
theorem claim_C10 (st : FileState) (item_id : String) (pre post : List Item)
    (it : Item) (u : ItemUpdate)
    (hdata : read_data st = pre ++ it :: post)
    (hpre : ∀ y ∈ pre, y.id ≠ some item_id)
    (hit : it.id = some item_id) :
    ∃ merged,
      patch_item st item_id u = (.ok 200 merged, write_data (pre ++ merged :: post)) ∧
      (u.name = some none → merged.name = none) ∧
      (u.name = none → merged.name = it.name) ∧
      (u.price = some none → merged.price = none) ∧
      (u.price = none → merged.price = it.price) ∧
      (u.quantity = some none → merged.quantity = none) ∧
      (u.quantity = none → merged.quantity = it.quantity) ∧
      (u.description = some none → merged.description = none) ∧
      (u.description = none → merged.description = it.description) := by
  refine ⟨copyUpdate it u, ?_, ?_, ?_, ?_, ?_, ?_, ?_, ?_, ?_⟩
  · unfold patch_item
    rw [hdata, patchLoop_split _ _ _ _ _ hpre hit]
  · intro h; simp [copyUpdate, h]
  · intro h; simp [copyUpdate, h]
  · intro h; simp [copyUpdate, h]
  · intro h; simp [copyUpdate, h]
  · intro h; simp [copyUpdate, h]
  · intro h; simp [copyUpdate, h]
  · intro h; simp [copyUpdate, h]
  · intro h; simp [copyUpdate, h]

theorem claim_C10_witness :
    ∃ merged,
      patch_item
        (FileState.present (some
          [{ id := some "1", name := some "a", description := some "d",
             price := some 9, quantity := some 3 }]))
        "1"
        { name := some none, description := none,
          price := some none, quantity := some none } =
        (.ok 200 merged, write_data ([] ++ merged :: [])) ∧
      ((some (none : Option String) = some none) → merged.name = none) ∧
      ((some (none : Option String) = none) → merged.name = some "a") ∧
      ((some (none : Option Rat) = some none) → merged.price = none) ∧
      ((some (none : Option Rat) = none) → merged.price = some 9) ∧
      ((some (none : Option Int) = some none) → merged.quantity = none) ∧
      ((some (none : Option Int) = none) → merged.quantity = some 3) ∧
      ((none : Option (Option String)) = some none → merged.description = none) ∧
      ((none : Option (Option String)) = none → merged.description = some "d") :=
  claim_C10
    (FileState.present (some
      [{ id := some "1", name := some "a", description := some "d",
         price := some 9, quantity := some 3 }]))
    "1" [] []
    { id := some "1", name := some "a", description := some "d",
      price := some 9, quantity := some 3 }
    { name := some none, description := none,
      price := some none, quantity := some none }
    rfl (by simp) rfl
